import Mathlib

set_option maxHeartbeats 1000000
set_option maxRecDepth 4000

/-
Verification of SimBrief2Zibo (src/PI_SimBrief2Zibo.py) against its
natural-language specification.

The embedding below translates the Python source into Lean:
 - Python strings are Lean `String`s; the Python string primitives the plugin
   uses (`split`, `in`, `replace`, `strip`, slicing, `startswith`, ...) are
   re-implemented over `List Char` with structural recursion so that every
   definition evaluates inside the kernel.
 - Python exceptions (IndexError from subscripting, ValueError from `int()`,
   tuple unpacking and `.index`, AttributeError from `None` access) become the
   `Except PyErr` monad; code that catches exceptions is modelled by explicit
   matches.
 - Network and filesystem are oracles (`Env`): the directory listing is a list
   of file entries with creation times, and download / XML-write success are
   booleans.  Every filesystem-touching action is also recorded as an explicit
   effect (`Eff`), so "touches the filesystem" is a provable statement.
 - The XML document returned by SimBrief is modelled as a record (`OfpDoc`) of
   the fields the plugin reads; `shrink_xml` only deletes sections the plugin
   never reads again, so it is the identity on this record.
 - Python floats in `weight_transform` (`2.205`, `0.4535`) are modelled as the
   exact rationals 2205/1000 and 4535/10000 over `Int`, and Python `round` is
   round-half-to-even.
-/

/-- Python exception classes raised by the code paths modelled here. -/
inductive PyErr where
  | indexError
  | valueError (msg : String)
  | typeError
deriving Repr, DecidableEq

/-! ## Python string primitives, re-implemented structurally -/

/-- If `pre` is a prefix of `cs`, return the remainder; otherwise `none`. -/
def dropPre : List Char → List Char → Option (List Char)
  | [], rest => some rest
  | _ :: _, [] => none
  | p :: ps, c :: cs => if p = c then dropPre ps cs else none

/-- Worker for `strSplitOn`: `fuel` bounds the scan (it starts at the input
length, which suffices because the separator is nonempty in every use). -/
def splitGo (sep : List Char) : Nat → List Char → List Char → List (List Char)
  | _, [], acc => [acc.reverse]
  | 0, rest, acc => [acc.reverse ++ rest]
  | fuel + 1, c :: cs, acc =>
    match dropPre sep (c :: cs) with
    | some rest => acc.reverse :: splitGo sep fuel rest []
    | none => splitGo sep fuel cs (c :: acc)

/-- Python `s.split(sep)` for a nonempty separator `sep`. -/
def strSplitOn (s sep : String) : List String :=
  (splitGo sep.toList s.toList.length s.toList []).map fun cs => String.mk cs

/-- Python `pat in s` (substring test, nonempty `pat`), expressed through the
same splitting primitive the parser uses. -/
def strContains (s pat : String) : Bool :=
  decide (2 ≤ (strSplitOn s pat).length)

/-- Worker for `strReplace`. -/
def replGo (old new : List Char) : Nat → List Char → List Char
  | _, [] => []
  | 0, rest => rest
  | fuel + 1, c :: cs =>
    match dropPre old (c :: cs) with
    | some rest => new ++ replGo old new fuel rest
    | none => c :: replGo old new fuel cs

/-- Python `s.replace(old, new)` for nonempty `old`: every non-overlapping
occurrence, left to right. -/
def strReplace (s old new : String) : String :=
  String.mk (replGo old.toList new.toList s.toList.length s.toList)

/-- Worker for `pySplitWs`. -/
def wsSplitGo : List Char → List Char → List (List Char)
  | [], acc => if acc.isEmpty then [] else [acc.reverse]
  | c :: cs, acc =>
    if c.isWhitespace then
      (if acc.isEmpty then [] else [acc.reverse]) ++ wsSplitGo cs []
    else wsSplitGo cs (c :: acc)

/-- Python `s.split()` (no argument): split on runs of whitespace, never
producing empty tokens. -/
def pySplitWs (s : String) : List String :=
  (wsSplitGo s.toList []).map fun cs => String.mk cs

/-- Python `s.strip()`. -/
def pyStrip (s : String) : String :=
  String.mk (((s.toList.dropWhile Char.isWhitespace).reverse.dropWhile Char.isWhitespace).reverse)

/-- Python `s.startswith(pre)`. -/
def strStartsWith (s pre : String) : Bool :=
  (dropPre pre.toList s.toList).isSome

/-- Python `s.endswith(suf)`. -/
def strEndsWith (s suf : String) : Bool :=
  (dropPre suf.toList.reverse s.toList.reverse).isSome

/-- Python `s[:n]` for `n ≥ 0`. -/
def pyTake (s : String) (n : Nat) : String := String.mk (s.toList.take n)

/-- Python `s[n:]` for `n ≥ 0`. -/
def pyDrop (s : String) (n : Nat) : String := String.mk (s.toList.drop n)

/-- Python `s[:-n]` for `n ≥ 1`. -/
def pyDropRight (s : String) (n : Nat) : String :=
  String.mk (s.toList.take (s.toList.length - n))

/-- Python `s[-n:]` for `n ≥ 1`. -/
def pyTakeRight (s : String) (n : Nat) : String :=
  String.mk (s.toList.drop (s.toList.length - n))

/-- Python `s[a:b]` for `0 ≤ a ≤ b`. -/
def pySlice (s : String) (a b : Nat) : String :=
  String.mk ((s.toList.drop a).take (b - a))

/-- Python `s.upper()` (ASCII). -/
def pyUpper (s : String) : String := String.mk (s.toList.map Char.toUpper)

/-- Python `sep.join(xs)`. -/
def strJoin (sep : String) (xs : List String) : String :=
  String.mk (List.intercalate sep.toList (xs.map String.toList))

/-- Python `l[i]` for `i ≥ 0`: raises IndexError when out of range. -/
def pyIndex {α : Type} : List α → Nat → Except PyErr α
  | [], _ => .error .indexError
  | x :: _, 0 => .ok x
  | _ :: xs, n + 1 => pyIndex xs n

/-- Python `l[-3:]` and friends: the last at most `n` elements. -/
def lastN {α : Type} (n : Nat) (xs : List α) : List α :=
  xs.drop (xs.length - n)

/-- Python `zip(*rows)`: transpose, truncated to the shortest row. -/
def pyZipStar (xss : List (List String)) : List (List String) :=
  let n := match xss.map List.length with
    | [] => 0
    | h :: t => t.foldl min h
  (List.range n).map fun i => xss.map fun xs => xs.getD i ""

/-! ## Numeric helpers: `int()`, `str2int`, `round`, `weight_transform` -/

/-- Value of a string of decimal digits. -/
def digitsToNat (cs : List Char) : Nat :=
  cs.foldl (fun a c => a * 10 + (c.toNat - '0'.toNat)) 0

/-- Python `s.isdigit()` restricted to ASCII decimal digits (the only inputs
the plugin feeds it). -/
def pyIsDigit (s : String) : Bool :=
  !s.toList.isEmpty && s.toList.all Char.isDigit

/-- Python `int(s)`: strip, optional single sign, decimal digits; ValueError
otherwise. -/
def pyInt (s : String) : Except PyErr Int :=
  let v := pyStrip s
  match v.toList with
  | '-' :: rest =>
    if !rest.isEmpty && rest.all Char.isDigit then .ok (-(digitsToNat rest : Int))
    else .error (.valueError v)
  | '+' :: rest =>
    if !rest.isEmpty && rest.all Char.isDigit then .ok (digitsToNat rest : Int)
    else .error (.valueError v)
  | cs =>
    if !cs.isEmpty && cs.all Char.isDigit then .ok (digitsToNat cs : Int)
    else .error (.valueError v)

/-- `str2int` from the source: strip; empty maps to 0; digits, or a single
leading sign followed by digits; anything else raises ValueError. -/
def str2int (s : String) : Except PyErr Int :=
  let v := pyStrip s
  if v.toList.length = 0 then .ok 0
  else if pyIsDigit v then .ok (digitsToNat v.toList : Int)
  else if pyIsDigit (pyDrop v 1) && (pyTake v 1 = "-" || pyTake v 1 = "+") then
    .ok ((if pyTake v 1 = "-" then (-1 : Int) else 1) * (digitsToNat (v.toList.drop 1) : Int))
  else .error (.valueError v)

/-- Python `round` on an exact rational `num / den` (`den > 0`): round to the
nearest integer, ties to even. -/
def roundHalfEven (num den : Int) : Int :=
  let f := Int.ediv num den
  let r := num - f * den
  if 2 * r < den then f
  else if den < 2 * r then f + 1
  else if Int.emod f 2 = 0 then f
  else f + 1

/-- `weight_transform` from the source.  The float constants `2.205` and
`0.4535` are modelled as the exact rationals 2205/1000 and 4535/10000. -/
def weight_transform (weight unit : String) : Except PyErr String :=
  let t := if unit = "kgs" then "lbs" else "kgs"
  match str2int weight with
  | .error e => .error e
  | .ok n =>
    let r := if unit = "kgs" then roundHalfEven (n * 2205) 1000
             else roundHalfEven (n * 4535) 10000
    .ok (toString r ++ " " ++ t)

/-! ## The OFP document and the layout-dispatching descent-wind extractor -/

/-- One `<fix>` element of the navigation log. -/
structure OfpFix where
  ident : String
  oat_isa_dev : String
deriving Repr, DecidableEq

/-- The fields of the SimBrief XML response that the plugin reads. -/
structure OfpDoc where
  request_id : String
  origin_icao : String
  destination_icao : String
  origin_plan_rwy : String
  dest_plan_rwy : String
  navlog_fixes : List OfpFix
  avg_temp_dev : String
  dest_metar : String
  ofp_layout : String
  plan_html : String
  route : String
  fms_directory : String
  fms_xpe_link : String
  callsign : String
  units : String
  oew : String
  cargo : String
  payload : String
  pax_count_actual : String
  est_zfw : String
  est_tow : String
  est_ldw : String
deriving Repr, DecidableEq

/-- The carrier codes of the common LIDO-style layout family. -/
def famA : List String := ["RYR", "LIDO", "THY", "ACA"]

/-- Constant `DAYS` from the source: recency window for route files. -/
def DAYS : Int := 2

/-- `extract_descent_winds` from the source.  Wind rows are lists of strings
(the Python tuples have varying arity across layouts). -/
def extract_descent_winds (ofp : OfpDoc) (layout : String) : Except PyErr (List (List String)) :=
  let source := ofp.plan_html
  if famA.any fun s => strContains layout s then
    -- LIDO-style family: text up to the next blank line after 'DESCENT',
    -- last three whitespace tokens of every remaining line.
    match pyIndex (strSplitOn source "DESCENT") 1 with
    | .error e => .error e
    | .ok seg =>
      match pyIndex (strSplitOn seg "\n\n") 0 with
      | .error e => .error e
      | .ok text =>
        let lines := (strSplitOn text "\n").drop 1
        .ok (lines.map fun l => lastN 3 (pySplitWs l))
  else if layout = "UAL 2018" then
    match pyIndex (strSplitOn source "DESCENT WINDS") 1 with
    | .error e => .error e
    | .ok seg =>
      match pyIndex (strSplitOn seg "STARTFWZPAD") 0 with
      | .error e => .error e
      | .ok text =>
        let lines := ((strSplitOn text "</tr><tr>").drop 1).take 4
        -- ET.XML over each embedded row is modelled as taking the texts of the
        -- row's cells, i.e. the strings between <td> and </td> tags.
        .ok (lines.map fun l =>
          (((strSplitOn l "<td>").drop 1).map fun seg =>
            (strSplitOn seg "</td>").headD "").map fun c =>
              let v := strReplace (pyStrip c) "FL" ""
              if v = "" then "+15" else v)
  else if layout = "DAL" then
    match pyIndex (strSplitOn source "DESCENT FORECAST WINDS") 1 with
    | .error e => .error e
    | .ok seg =>
      match pyIndex (strSplitOn seg "*") 0 with
      | .error e => .error e
      | .ok text =>
        let lines := ((strSplitOn text "\n").drop 1).dropLast
        let data := pyZipStar (lines.map pySplitWs)
        match data.mapM (fun x => pyIndex x 0) with
        | .error e => .error e
        | .ok cols0 =>
          if cols0.contains "10000" then
            let idx100 := cols0.indexOf "10000" + 1
            match data.mapM (fun el =>
                (match pyIndex el 0, pyIndex el 1 with
                | .ok e0, .ok e1 =>
                  .ok [pyDropRight e0 2, pyTake e1 2 ++ "0/" ++ pyTakeRight e1 3, "+15"]
                | .error e, _ => .error e
                | _, .error e => .error e : Except PyErr (List String))) with
            | .error e => .error e
            | .ok rows => .ok (rows.take idx100)
          else .error (.valueError "10000 is not in list")
  else if layout = "SWA" then
    match pyIndex (strSplitOn source "DESCENT WINDS") 1 with
    | .error e => .error e
    | .ok seg =>
      match pyIndex (strSplitOn seg "\n\n") 0 with
      | .error e => .error e
      | .ok text =>
        let lines := strSplitOn (pyStrip text) "\n"
        let data := pyZipStar (lines.map pySplitWs)
        data.mapM fun el =>
          (match pyIndex el 0, pyIndex el 1 with
          | .ok e0, .ok e1 =>
            .ok [pyDropRight e0 2, pyTake e1 2 ++ "0" ++ pySlice e1 2 6,
                 (if strContains e1 "P" then "+" else "-") ++ pyTakeRight e1 2]
          | .error e, _ => .error e
          | _, .error e => .error e : Except PyErr (List String))
  else if layout = "KLM" then
    match pyIndex (strSplitOn source "CRZ ALT") 1 with
    | .error e => .error e
    | .ok seg =>
      match pyIndex (strSplitOn seg "DEFRTE") 0 with
      | .error e => .error e
      | .ok text =>
        let lines := (strSplitOn (strReplace text "FL" "") "\n").take 3
        .ok (lines.map fun l => lastN 2 (pySplitWs l) ++ ["+15"])
  else
    -- AAL, QFA have no descent winds in OFP; other carriers have no 738 or
    -- are not operative: a deliberate no-data sentinel, not a failure.
    .ok (List.replicate 5 ["", "", ""])

/-- Result of `SimBrief.parse_ofp`. -/
structure ParsedOfp where
  dest_isa : Int
  dest_metar : String
  winds : List (List String)
deriving Repr, DecidableEq

/-- `SimBrief.parse_ofp` from the source: destination ISA deviation from the
last nav-log fix when its identifier equals the destination ICAO, otherwise
from the flight's average temperature deviation; both via Python `int()`. -/
def SimBrief.parse_ofp (ofp : OfpDoc) : Except PyErr ParsedOfp :=
  let layout := ofp.ofp_layout
  match ofp.navlog_fixes.getLast? with
  | none => .error .indexError
  | some fix =>
    match (if fix.ident = ofp.destination_icao then pyInt fix.oat_isa_dev
           else pyInt ofp.avg_temp_dev) with
    | .error e => .error e
    | .ok dest_isa =>
      match extract_descent_winds ofp layout with
      | .error e => .error e
      | .ok winds => .ok { dest_isa, dest_metar := ofp.dest_metar, winds }

/-- Decidable equality of `Except` results, needed to evaluate concrete runs. -/
instance {e a : Type} [DecidableEq e] [DecidableEq a] : DecidableEq (Except e a) := fun x y =>
  match x, y with
  | .ok u, .ok v => if h : u = v then .isTrue (by rw [h]) else .isFalse (by simp [h])
  | .error u, .error v => if h : u = v then .isTrue (by rw [h]) else .isFalse (by simp [h])
  | .ok _, .error _ => .isFalse (by simp)
  | .error _, .ok _ => .isFalse (by simp)

/-! ## The acquisition task: route-file resolution, artifact composition -/

/-- One file of the FMS-plans directory: base name, extension, creation time
(seconds). -/
structure FileEntry where
  stem : String
  suffix : String
  ctime : Int
deriving Repr, DecidableEq

/-- Oracle for the external world of one acquisition run: the directory
listing, the current time, and whether the route-file download and the XML
write succeed. -/
structure Env where
  files : List FileEntry
  now : Int
  downloadOk : Bool
  writeOk : Bool
deriving Repr, DecidableEq

/-- Filesystem / network effects performed by an acquisition run. -/
inductive Eff where
  | listDir
  | download (src dst : String)
  | insertDepArr (file : String) (dep arr : List String)
  | writeXml (name text : String)
deriving Repr, DecidableEq

/-- The mutable fields of a `SimBrief` object (`__init__` defaults). -/
structure SB where
  request_id : Option String
  origin : Option String := none
  destination : Option String := none
  fp_link : Option String := none
  coroute_filename : Option String := none
  error : Option String := none
  message : Option String := none
  fp_info : List (String × String) := []
deriving Repr, DecidableEq

/-- The route-file candidates of `find_or_retrieve_fp`: extension `.fms` or
`.fmx`, stem starting with the origin ICAO and containing the destination
ICAO, created within the last `DAYS` days (strictly newer than `now - DAYS`
days; a day is 86400 seconds). -/
def matchingFiles (env : Env) (origin destination : String) : List FileEntry :=
  env.files.filter fun f =>
    (f.suffix == ".fms" || f.suffix == ".fmx") &&
    strStartsWith f.stem origin &&
    strContains f.stem destination &&
    decide (env.now - DAYS * 86400 < f.ctime)

/-- Python `max(files, key=lambda x: x.stat().st_ctime)`: first maximal
element by creation time. -/
def pyMaxCtime (f0 : FileEntry) (rest : List FileEntry) : FileEntry :=
  rest.foldl (fun b g => if b.ctime < g.ctime then g else b) f0

/-- `SimBrief.download`: fetch `src` and write it to `dst`.  The transport
and the file write are the `downloadOk` oracle; on failure the object records
the classified message and error, and the function returns `none` (Python
`False`). -/
def SimBrief.download (env : Env) (s : SB) (src dst : String) :
    SB × List Eff × Option String :=
  if env.downloadOk then (s, [Eff.download src dst], some dst)
  else ({ s with message := some "Error downloading fms file from SimBrief",
                 error := some "connection error" },
        [Eff.download src dst], none)

/-- Python truthiness of a digit-count test: `len([c for c in t if c.isdigit()])`. -/
def countDigits (t : String) : Nat := (t.toList.filter Char.isDigit).length

/-- Python `any(c.isdigit() for c in t)`. -/
def hasDigit (t : String) : Bool := t.toList.any Char.isDigit

/-- `extract_dep_arr` from the source: heuristically extract SID/STAR/
transition/approach lines from the OFP route string.  Tuple unpacking of a
`split` with the wrong number of parts raises ValueError; subscripting an
emptied route list raises IndexError. -/
def extract_dep_arr (ofp : OfpDoc) : Except PyErr (List String × List String) := do
  let dep_icao := ofp.origin_icao
  let arr_icao := ofp.destination_icao
  let rte := pySplitWs ofp.route
  if rte.isEmpty then
    return ([], [])
  -- Departure
  let dep_rwy := ofp.origin_plan_rwy
  let dep : List String := if dep_rwy ≠ "" then ["DEPRWY RW" ++ dep_rwy] else []
  -- rte is nonempty here, so rte[0] cannot raise
  let rte := if strStartsWith (rte.headD "") dep_icao then rte.drop 1 else rte
  let dep ← (if rte.length > 1 then do
      let r0 ← pyIndex rte 0
      if strContains r0 "." then
        match strSplitOn r0 "." with
        | sid :: tr :: [] => pure (dep ++ ["SID " ++ sid, "SIDTRANS " ++ tr])
        | _ => Except.error (.valueError "unpack")
      else if countDigits r0 = 1 then do
        let r1 ← pyIndex rte 1
        pure (dep ++ ["SID " ++ r0] ++ (if !hasDigit r1 then ["SIDTRANS " ++ r1] else []))
      else pure dep
    else pure dep : Except PyErr (List String))
  -- Arrival
  let arr_rwy := ofp.dest_plan_rwy
  let arr : List String := if arr_rwy ≠ "" then ["DESRWY RW" ++ arr_rwy] else []
  let last ← pyIndex rte (rte.length - 1)
  let (des, rte) : Option String × List String :=
    if strStartsWith last arr_icao then (some last, rte.dropLast) else (none, rte)
  let arr ← (if rte.length > 3 && rte.headD "" != rte.getLastD "" then do
      let rlast ← pyIndex rte (rte.length - 1)
      if strContains rlast "." then
        match strSplitOn rlast "." with
        | star :: tr :: [] => pure (arr ++ ["STAR " ++ star, "STARTRANS " ++ tr])
        | _ => Except.error (.valueError "unpack")
      else if countDigits rlast = 1 || strEndsWith rlast arr_rwy then do
        let r2 ← pyIndex rte (rte.length - 2)
        pure (arr ++ ["STAR " ++ rlast] ++ (if !hasDigit r2 then ["STARTRANS " ++ r2] else []))
      else pure arr
    else pure arr : Except PyErr (List String))
  let arr ← (match des with
    | some d =>
      if strContains d "/" then
        match strSplitOn d "/" with
        | _ :: app :: [] => pure (arr ++ ["APP " ++ app])
        | _ => Except.error (.valueError "unpack")
      else pure arr
    | none => pure arr : Except PyErr (List String))
  return (dep, arr)

/-- `SimBrief.find_or_retrieve_fp` from the source.  Returns the co-route
base name (Python returns `file.stem`, or `False`, modelled as `Option`).
`insert_dep_arr` edits the downloaded file in place and cannot change the
returned stem; it is recorded as an effect. -/
def SimBrief.find_or_retrieve_fp (env : Env) (s : SB) (ofp : OfpDoc) :
    SB × List Eff × Except PyErr (Option String) :=
  let s := { s with origin := some ofp.origin_icao,
                    destination := some ofp.destination_icao }
  if ofp.origin_icao = "" ∨ ofp.destination_icao = "" then (s, [], .ok none)
  else
    let origin := ofp.origin_icao
    let destination := ofp.destination_icao
    match matchingFiles env origin destination with
    | f0 :: rest =>
      -- the user already has a flight plan for this OFP: most recent wins
      (s, [Eff.listDir], .ok (some (pyMaxCtime f0 rest).stem))
    | [] =>
      -- need to download the fms file from SimBrief
      let stem := origin ++ destination
      let link := ofp.fms_directory ++ ofp.fms_xpe_link
      let s := { s with fp_link := some link }
      match SimBrief.download env s link (stem ++ ".fms") with
      | (s, deff, none) => (s, Eff.listDir :: deff, .ok none)
      | (s, deff, some _) =>
        match extract_dep_arr ofp with
        | .error e => (s, Eff.listDir :: deff, .error e)
        | .ok (dep, arr) =>
          let effs := if dep ≠ [] ∨ arr ≠ []
            then [Eff.insertDepArr (stem ++ ".fms") dep arr] else []
          (s, Eff.listDir :: deff ++ effs, .ok (some stem))

/-- Fixed summary banner of the composed `plan_html` block. -/
def summary_tag : String :=
  "<div style=\"line-height:14px;font-size:13px\"><pre><!--BKMK///OFP///0--><!--BKMK///Summary and Fuel///1--><b>[ OFP ]\n--------------------------------------------------------------------</b>\nOFP 1\n\n"

/-- Fixed wind-information banner of the composed `plan_html` block. -/
def wind_tag : String :=
  "<h2 style=\"page-break-after: always;\"> </h2><!--BKMK///Wind Information///1-->--------------------------------------------------------------------\n WIND INFORMATION \nDESCENT\n"

/-- Fixed airport-weather banner of the composed `plan_html` block. -/
def wx_tag : String :=
  "<h2 style=\"page-break-after: always;\"> </h2><!--BKMK///Airport WX List///0--><b>[ Airport WX List ]\n--------------------------------------------------------------------</b>\nDestination:\n"

/-- Python `f"{x:03d}"` on a nonnegative value: decimal digits zero-padded to
width 3. -/
def pad3 (n : Nat) : String :=
  let s := toString n
  if s.length < 3 then String.mk (List.replicate (3 - s.length) '0') ++ s.toList.asString
  else s

/-- The `AVG ISA` line of `create_xml_file`: sign letter `M` for negative and
`P` otherwise, absolute value zero-padded to three digits. -/
def destIsaLine (isa : Int) : String :=
  "AVG ISA       " ++ (if isa < 0 then "M" else "P") ++ pad3 isa.natAbs ++ "\n\n"

/-- The descent-wind table rendered as whitespace-joined lines. -/
def windsBlock (winds : List (List String)) : String :=
  strJoin "\n" (winds.map fun el => strJoin " " el) ++ "\n\n"

/-- The METAR lines of `create_xml_file`: drop the station token, replace
`Z` in the (assumed) timestamp token by a space, prefix the destination ICAO,
a newline and `SA  `.  Subscripting `parts[0]` raises IndexError when the
METAR has fewer than two whitespace tokens. -/
def metarBlock (destination metar : String) : Except PyErr String :=
  let parts := (pySplitWs metar).drop 1
  match pyIndex parts 0 with
  | .error e => .error e
  | .ok p0 =>
    let parts := strReplace p0 "Z" " " :: parts.drop 1
    .ok (destination ++ "\nSA  " ++ strJoin " " parts ++ "\n")

/-- Python `str(x)` of an optional string (`None` prints as `None`). -/
def pyStrOpt : Option String → String
  | some s => s
  | none => "None"

/-- The text written into the artifact's `plan_html` element by
`create_xml_file`. -/
def composePlanHtml (destination : Option String) (data : ParsedOfp) : Except PyErr String :=
  let dest_isa := destIsaLine data.dest_isa
  let winds := windsBlock data.winds
  match metarBlock (pyStrOpt destination) data.dest_metar with
  | .error e => .error e
  | .ok dest_metar => .ok (summary_tag ++ dest_isa ++ wind_tag ++ winds ++ wx_tag ++ dest_metar)

/-- Fixed base name of the output artifact (`uplink_filename`). -/
def uplink_filename : String := "b738x"

/-- `SimBrief.create_xml_file` from the source: compose the `plan_html`
block, then write the tree.  Only the `tree.write` call sits inside the
`try`: a write failure is caught and classified, while an exception raised
during composition propagates. -/
def SimBrief.create_xml_file (env : Env) (s : SB) (data : ParsedOfp) :
    SB × List Eff × Except PyErr Bool :=
  match composePlanHtml s.destination data with
  | .error e => (s, [], .error e)
  | .ok text =>
    let filename := uplink_filename ++ ".xml"
    if env.writeOk then (s, [Eff.writeXml filename text], .ok true)
    else ({ s with message := some ("Error writing " ++ filename),
                   error := some "write error" }, [], .ok false)

/-- The trip-summary dictionary built by `process` after a successful write
(insertion order preserved).  `weight_transform` may raise ValueError through
`str2int`; an absent origin/destination would raise AttributeError (modelled
as `typeError`), though `process` only reaches this point after both were
checked nonempty. -/
def buildFpInfo (ofp : OfpDoc) (fp_filename : String) (s : SB) :
    Except PyErr (List (String × String)) := do
  let origin ← (match s.origin with
    | some o => pure o | none => Except.error .typeError : Except PyErr String)
  let destination ← (match s.destination with
    | some d => pure d | none => Except.error .typeError : Except PyErr String)
  let u := ofp.units
  let oewT ← weight_transform ofp.oew u
  let cargoT ← weight_transform ofp.cargo u
  let payloadT ← weight_transform ofp.payload u
  let zfwT ← weight_transform ofp.est_zfw u
  let towT ← weight_transform ofp.est_tow u
  let ldwT ← weight_transform ofp.est_ldw u
  return [("origin", pyStrip (pyUpper origin)),
          ("destination", pyStrip (pyUpper destination)),
          ("callsign", ofp.callsign),
          ("co route", fp_filename),
          ("oew", ofp.oew ++ " " ++ u ++ " (" ++ oewT ++ ")"),
          ("pax", ofp.pax_count_actual),
          ("cargo", ofp.cargo ++ " " ++ u ++ " (" ++ cargoT ++ ")"),
          ("payload", ofp.payload ++ " " ++ u ++ " (" ++ payloadT ++ ")"),
          ("zfw", ofp.est_zfw ++ " " ++ u ++ " (" ++ zfwT ++ ")"),
          ("tow", ofp.est_tow ++ " " ++ u ++ " (" ++ towT ++ ")"),
          ("ldw", ofp.est_ldw ++ " " ++ u ++ " (" ++ ldwT ++ ")")]

/-- `SimBrief.process` from the source, on an already-parsed response.
Mirrors the statement order of the Python method; note that the object's
`request_id` is overwritten as soon as a route file is resolved, before the
artifact write is attempted. -/
def SimBrief.process (env : Env) (s : SB) (ofp : OfpDoc) :
    SB × List Eff × Except PyErr Unit :=
  -- the local `request_id = data.params.request_id` is inlined as
  -- `ofp.request_id`
  if s.request_id = some ofp.request_id then
    -- no new OFP
    ({ s with message := some "No new OFP available" }, [], .ok ())
  else
    match SimBrief.find_or_retrieve_fp env s ofp with
    | (s, effs, .error e) => (s, effs, .error e)
    | (s, effs, .ok fpOpt) =>
      match fpOpt with
      | none => (s, effs, .ok ())
      | some fp_filename =>
        if fp_filename = "" then (s, effs, .ok ())  -- Python falsy stem
        else
          let s := { s with request_id := some ofp.request_id,
                            coroute_filename := some fp_filename }
          match SimBrief.parse_ofp ofp with
          | .error e => (s, effs, .error e)
          | .ok parsed =>
            match SimBrief.create_xml_file env s parsed with
            | (s, effs2, .error e) => (s, effs ++ effs2, .error e)
            | (s, effs2, .ok false) => (s, effs ++ effs2, .ok ())
            | (s, effs2, .ok true) =>
              let s := { s with message := some "All set!" }
              match buildFpInfo ofp fp_filename s with
              | .error e => (s, effs ++ effs2, .error e)
              | .ok info => ({ s with fp_info := info }, effs ++ effs2, .ok ())

/-- The result dictionary of `SimBrief.run`:
`{'error', 'request_id', 'message', 'fp_info'}`. -/
structure Outcome where
  error : Option String
  request_id : Option String
  message : Option String
  fp_info : List (String × String)
deriving Repr, DecidableEq

/-- Read the outcome dictionary off a `SimBrief` object. -/
def outcomeOf (s : SB) : Outcome :=
  { error := s.error, request_id := s.request_id,
    message := s.message, fp_info := s.fp_info }

/-- One acquisition run as seen across the `Async` task boundary, after a
successful provider query: `SimBrief.run` builds the outcome dictionary,
and `Async.run` captures any exception as the task's result instead of the
dictionary. -/
def simbriefTask (env : Env) (reqIn : Option String) (ofp : OfpDoc) :
    List Eff × Except PyErr Outcome :=
  match SimBrief.process env { request_id := reqIn } ofp with
  | (s, effs, .ok _) => (effs, .ok (outcomeOf s))
  | (_, effs, .error e) => (effs, .error e)

/-- What the flight-loop callback displays for a joined task result: an
escaped exception becomes the generic unknown-error message, a returned
dictionary surfaces its own message. -/
def controllerMessage (r : Except PyErr Outcome) : Option String :=
  match r with
  | .error _ => some "An unknown error occurred"
  | .ok o => o.message

/-! ## The flight-phase controller (`PythonInterface.loopCallback`) -/

/-- An `Async(SimBrief.run, pilot_id, plans, request_id)` task as constructed
by the callback: the arguments it was started with. -/
structure TaskHandle where
  pilot_id : Nat
  request_id : Option String
deriving Repr, DecidableEq

/-- The controller fields the flight-loop callback reads and writes
(`PythonInterface.__init__` defaults shown). -/
structure CtrlState where
  flight_started : Bool := false
  fp_checked : Bool := false
  async_task : Option TaskHandle := none
  request_id : Option String := none
  fp_info : List (String × String) := []
  details_message : Option String := none
  loop_schedule : Int := 15
deriving Repr, DecidableEq

/-- One tick's reads of the external world: sensor snapshot plus, for the
outstanding task if any, its `pending()` poll and the `result` observed on
join (`Async.run` stores the captured exception as the result). -/
structure TickInput where
  aircraft_detected : Bool
  pilot_id : Option Nat
  at_gate : Bool
  task_pending : Bool
  task_result : Except PyErr Outcome
deriving Repr, DecidableEq

/-- Constant `DEFAULT_SCHEDULE` from the source. -/
def DEFAULT_SCHEDULE : Int := 15

/-- Python truthiness of `self.pilot_id` (an `int` or `None`). -/
def pilotTruthy : Option Nat → Bool
  | none => false
  | some n => n != 0

/-- `PythonInterface.loopCallback` from the source, as a step function: given
the current controller state and the tick's reads, produce the next state and
whether this tick constructed and started a new acquisition task. -/
def loopCallback (s : CtrlState) (i : TickInput) : CtrlState × Bool :=
  if i.aircraft_detected && pilotTruthy i.pilot_id then
    if !s.flight_started then
      if !s.fp_checked && i.at_gate then
        match s.async_task with
        | some _ =>
          -- we already started a SimBrief async instance
          if !i.task_pending then
            -- job ended: join, inspect the result
            let s :=
              match i.task_result with
              | .error _ => { s with details_message := some "An unknown error occurred" }
              | .ok o =>
                let s := { s with details_message := o.message }
                if o.error ≠ none then s
                else if o.fp_info ≠ [] then
                  { s with request_id := o.request_id, fp_info := o.fp_info,
                           fp_checked := true }
                else if s.fp_info ≠ [] then { s with fp_checked := true }
                else s
            ({ s with async_task := none, loop_schedule := DEFAULT_SCHEDULE }, false)
          else
            -- no answer yet, waiting ...
            (s, false)
        | none =>
          -- we need to start an async task
          ({ s with details_message := some "starting SimBrief query ...",
                    async_task := some { pilot_id := i.pilot_id.getD 0,
                                         request_id := s.request_id },
                    loop_schedule := 3 }, true)
      else if !s.flight_started && !i.at_gate then
        -- flight mode, do nothing
        ({ s with flight_started := true,
                  details_message := some "Have a nice flight!",
                  loop_schedule := DEFAULT_SCHEDULE * 10 }, false)
      else (s, false)
    else if i.at_gate then
      -- look for a new OFP for a turnaround flight
      ({ s with flight_started := false, fp_checked := false, fp_info := [],
                details_message := some "Looking for a new OFP ...",
                loop_schedule := DEFAULT_SCHEDULE }, false)
    else (s, false)
  else
    let s :=
      if !i.aircraft_detected then { s with details_message := some "Aircraft not detected" }
      else if !pilotTruthy i.pilot_id then
        { s with details_message := some "SimBrief PilotID required" }
      else s
    ({ s with loop_schedule := DEFAULT_SCHEDULE * 5 }, false)

/-! ## Concrete fixtures used by witnesses and counterexamples -/

/-- A synthetic OFP document: unknown layout, destination-matching last fix
with ISA deviation `-4`, a three-token destination METAR. -/
def ofpA : OfpDoc :=
  { request_id := "NEW"
    origin_icao := "KJFK"
    destination_icao := "KBOS"
    origin_plan_rwy := ""
    dest_plan_rwy := ""
    navlog_fixes := [{ ident := "KBOS", oat_isa_dev := "-4" }]
    avg_temp_dev := "-2"
    dest_metar := "KBOS 211251Z 10003KT"
    ofp_layout := "ZZZ"
    plan_html := ""
    route := ""
    fms_directory := ""
    fms_xpe_link := "link.fms"
    callsign := "TEST"
    units := "kgs"
    oew := "1000"
    cargo := "100"
    payload := "200"
    pax_count_actual := "1"
    est_zfw := "1100"
    est_tow := "1200"
    est_ldw := "1150" }

/-- `ofpA` with a single-token destination METAR. -/
def ofpShortMetar : OfpDoc := { ofpA with dest_metar := "KBOS" }

/-- `ofpA` with a non-matching last fix. -/
def ofpAvg : OfpDoc :=
  { ofpA with navlog_fixes := [{ ident := "TUSKY", oat_isa_dev := "-4" }] }

/-- A DAL-layout OFP whose report carries the heading but no `10000` row. -/
def ofpDalNo10000 : OfpDoc :=
  { ofpA with ofp_layout := "DAL",
              plan_html := "XX DESCENT FORECAST WINDS\nFL350 250/40\nFL300 240/30\n*YY" }

/-- A directory with one matching cached route file, one day old; downloads
would succeed, the XML write succeeds. -/
def envCached : Env :=
  { files := [{ stem := "KJFKKBOS01", suffix := ".fms", ctime := 913600 }]
    now := 1000000
    downloadOk := true
    writeOk := true }

/-- `envCached` but the XML write fails. -/
def envWriteFail : Env := { envCached with writeOk := false }

/-- An empty directory whose download fails. -/
def envNoFileNoNet : Env :=
  { files := [{ stem := "KJFKKBOS99", suffix := ".fms", ctime := 600000 }]
    now := 1000000
    downloadOk := false
    writeOk := true }

/-- A controller state with an outstanding task. -/
def ctrlPendingState : CtrlState :=
  { async_task := some { pilot_id := 7, request_id := some "OLD" } }

/-- A tick input at the gate with the aircraft detected and a configured
pilot id, whose outstanding task (if any) is still pending. -/
def tickAtGate : TickInput :=
  { aircraft_detected := true
    pilot_id := some 7
    at_gate := true
    task_pending := true
    task_result := .ok { error := none, request_id := none, message := none, fp_info := [] } }

/-- Modelled from the spec's words, for comparison with `metarBlock`
(refinement check for the composition claim): a METAR line formed from the
destination METAR with the station token removed, the timestamp token's
TRAILING `Z` replaced by a space, prefixed by the destination ICAO, a newline
and `SA  `. -/
def claimedMetarLine (destination metar : String) : Option String :=
  match (pySplitWs metar).drop 1 with
  | [] => none
  | p0 :: rest =>
    let p0 := if strEndsWith p0 "Z" then pyDropRight p0 1 ++ " " else p0
    some (destination ++ "\nSA  " ++ strJoin " " (p0 :: rest) ++ "\n")

/-- A fresh controller state (all `__init__` defaults, no outstanding task). -/
def ctrlIdleState : CtrlState := {}

/-! ## Helper lemmas -/

/-- Subscripting past the end raises IndexError. -/
theorem pyIndex_error_of_le {α : Type} (l : List α) (i : Nat) (h : l.length ≤ i) :
    pyIndex l i = .error .indexError := by
  induction l generalizing i with
  | nil => cases i <;> rfl
  | cons x xs ih =>
    cases i with
    | zero => simp at h
    | succ n => exact ih n (by simpa using h)

/-- A missing substring means the split has a single piece. -/
theorem strSplitOn_len_of_not_contains (s pat : String)
    (h : strContains s pat = false) : (strSplitOn s pat).length ≤ 1 := by
  simp only [strContains, decide_eq_false_iff_not, not_le] at h
  omega

/-- Python `max(..., key=ctime)` returns a member of maximal creation time. -/
theorem pyMaxCtime_spec (f0 : FileEntry) (rest : List FileEntry) :
    pyMaxCtime f0 rest ∈ f0 :: rest ∧
    ∀ g ∈ f0 :: rest, g.ctime ≤ (pyMaxCtime f0 rest).ctime := by
  induction rest generalizing f0 with
  | nil => simp [pyMaxCtime]
  | cons g t ih =>
    have hstep : pyMaxCtime f0 (g :: t) = pyMaxCtime (if f0.ctime < g.ctime then g else f0) t := rfl
    obtain ⟨ihm, ihle⟩ := ih (if f0.ctime < g.ctime then g else f0)
    constructor
    · rw [hstep]
      rcases List.mem_cons.mp ihm with h1 | h1
      · rw [h1]
        split <;> simp
      · simp [h1]
    · intro x hx
      rw [hstep]
      have hhead : (if f0.ctime < g.ctime then g else f0).ctime ≤
          (pyMaxCtime (if f0.ctime < g.ctime then g else f0) t).ctime :=
        ihle _ (List.mem_cons_self _ _)
      rcases List.mem_cons.mp hx with h1 | h1
      · subst h1
        refine le_trans ?_ hhead
        split <;> omega
      · rcases List.mem_cons.mp h1 with h2 | h2
        · subst h2
          refine le_trans ?_ hhead
          split <;> omega
        · exact ihle _ (List.mem_cons_of_mem _ h2)

/-! ## C4 -/

/-- C4: for every OFP document whose layout tag matches no known provider
family (no Family-A carrier-code substring, and not the `UAL 2018`, `DAL`,
`SWA` or `KLM` tags), descent-wind extraction returns exactly five empty
triples as a normal value, not a failure. -/
theorem C4_unknown_layout_default (ofp : OfpDoc) (layout : String)
    (h1 : (famA.any fun s => strContains layout s) = false)
    (h2 : layout ≠ "UAL 2018") (h3 : layout ≠ "DAL")
    (h4 : layout ≠ "SWA") (h5 : layout ≠ "KLM") :
    extract_descent_winds ofp layout = .ok (List.replicate 5 ["", "", ""]) := by
  simp [extract_descent_winds, h1, h2, h3, h4, h5]

/-- Witness for C4 at the concrete unknown layout tag `ZZZ`. -/
theorem C4_unknown_layout_default_witness :
    (famA.any fun s => strContains "ZZZ" s) = false ∧
    extract_descent_winds ofpA "ZZZ" = .ok (List.replicate 5 ["", "", ""]) :=
  ⟨by decide,
   C4_unknown_layout_default ofpA "ZZZ" (by decide) (by decide) (by decide)
     (by decide) (by decide)⟩

/-! ## C6 -/

/-- C6: the extracted destination ISA deviation equals the last nav-log fix's
reported deviation (read as a signed integer) when that fix's identifier
equals the destination ICAO, and otherwise equals the flight's average
temperature deviation (read as a signed integer). -/
theorem C6_dest_isa_deviation :
    (∀ (ofp : OfpDoc) (fix : OfpFix) (n : Int) (w : List (List String)),
       ofp.navlog_fixes.getLast? = some fix →
       fix.ident = ofp.destination_icao →
       pyInt fix.oat_isa_dev = .ok n →
       extract_descent_winds ofp ofp.ofp_layout = .ok w →
       SimBrief.parse_ofp ofp =
         .ok { dest_isa := n, dest_metar := ofp.dest_metar, winds := w }) ∧
    (∀ (ofp : OfpDoc) (fix : OfpFix) (n : Int) (w : List (List String)),
       ofp.navlog_fixes.getLast? = some fix →
       fix.ident ≠ ofp.destination_icao →
       pyInt ofp.avg_temp_dev = .ok n →
       extract_descent_winds ofp ofp.ofp_layout = .ok w →
       SimBrief.parse_ofp ofp =
         .ok { dest_isa := n, dest_metar := ofp.dest_metar, winds := w }) := by
  constructor
  · intro ofp fix n w hlast hid hint hw
    simp [SimBrief.parse_ofp, hlast, hid, hint, hw]
  · intro ofp fix n w hlast hid hint hw
    simp [SimBrief.parse_ofp, hlast, hid, hint, hw]

/-- Witness for C6: both branches at crafted fixtures (`ofpA` has a
destination-matching last fix with deviation `-4`; `ofpAvg` does not match
and falls back to the average deviation `-2`). -/
theorem C6_dest_isa_deviation_witness :
    SimBrief.parse_ofp ofpA =
      .ok { dest_isa := -4, dest_metar := "KBOS 211251Z 10003KT",
            winds := List.replicate 5 ["", "", ""] } ∧
    SimBrief.parse_ofp ofpAvg =
      .ok { dest_isa := -2, dest_metar := "KBOS 211251Z 10003KT",
            winds := List.replicate 5 ["", "", ""] } :=
  ⟨C6_dest_isa_deviation.1 ofpA { ident := "KBOS", oat_isa_dev := "-4" } (-4)
     (List.replicate 5 ["", "", ""]) (by decide) (by decide) (by decide) (by decide),
   C6_dest_isa_deviation.2 ofpAvg { ident := "TUSKY", oat_isa_dev := "-4" } (-2)
     (List.replicate 5 ["", "", ""]) (by decide) (by decide) (by decide) (by decide)⟩

/-! ## C9 -/

/-- C9: the weight conversion multiplies the parsed integer by 2.205 for unit
`kgs` and by 0.4535 otherwise (modelled exactly as 2205/1000 and 4535/10000),
rounds to the nearest integer (Python `round`: ties to even), and appends the
target unit; in particular 1000 kgs maps to `2205 lbs` and 1000 lbs to
`454 kgs`. -/
theorem C9_weight_transform (w : String) (n : Int) (h : str2int w = .ok n) :
    weight_transform w "kgs" = .ok (toString (roundHalfEven (n * 2205) 1000) ++ " lbs") ∧
    (∀ u, u ≠ "kgs" →
       weight_transform w u = .ok (toString (roundHalfEven (n * 4535) 10000) ++ " kgs")) ∧
    weight_transform "1000" "kgs" = .ok "2205 lbs" ∧
    weight_transform "1000" "lbs" = .ok "454 kgs" := by
  refine ⟨?_, ?_, by decide, by decide⟩
  · simp [weight_transform, h]
    rw [String.append_assoc, show (" " ++ "lbs" : String) = " lbs" from by decide]
  · intro u hu
    simp [weight_transform, h, hu]
    rw [String.append_assoc, show (" " ++ "kgs" : String) = " kgs" from by decide]

/-- Witness for C9 at the documented inputs. -/
theorem C9_weight_transform_witness :
    str2int "1000" = .ok 1000 ∧
    weight_transform "1000" "kgs" = .ok "2205 lbs" ∧
    weight_transform "1000" "lbs" = .ok "454 kgs" :=
  ⟨by decide,
   (C9_weight_transform "1000" 1000 (by decide)).2.2.1,
   (C9_weight_transform "1000" 1000 (by decide)).2.2.2⟩

/-! ## C2 -/

/-- C2: when the provider response carries the last accepted request id, the
run stops with the `No new OFP available` message and no change: the outcome
keeps the input request id, has empty error and empty trip info, and the run
performs no filesystem effect at all (no directory listing, download or
artifact write). -/
theorem C2_no_new_ofp (env : Env) (reqIn : Option String) (ofp : OfpDoc)
    (h : reqIn = some ofp.request_id) :
    simbriefTask env reqIn ofp =
      ([], .ok { error := none, request_id := reqIn,
                 message := some "No new OFP available", fp_info := [] }) := by
  subst h
  simp [simbriefTask, SimBrief.process, outcomeOf]

/-- Witness for C2: a second fetch of `ofpA` with its own request id. -/
theorem C2_no_new_ofp_witness :
    some "NEW" = some ofpA.request_id ∧
    simbriefTask envCached (some "NEW") ofpA =
      ([], .ok { error := none, request_id := some "NEW",
                 message := some "No new OFP available", fp_info := [] }) :=
  ⟨rfl, C2_no_new_ofp envCached (some "NEW") ofpA rfl⟩

/-! ## C5 -/

/-- C5: inside a matched provider family, a report body lacking the family's
sentinel marker is a hard parse error, never the five-empty-triple default:
missing `DESCENT` for the LIDO-style family, missing `DESCENT FORECAST WINDS`
or (concretely) a present heading without a `10000` level row for `DAL`,
missing `DESCENT WINDS` for `UAL 2018` and `SWA`, missing `CRZ ALT` for
`KLM`; and any extraction error makes `parse_ofp` — hence the fetch cycle —
fail. -/
theorem C5_matched_family_missing_sentinel :
    (∀ (ofp : OfpDoc) (layout : String),
       (famA.any fun s => strContains layout s) = true →
       strContains ofp.plan_html "DESCENT" = false →
       extract_descent_winds ofp layout = .error .indexError) ∧
    (∀ ofp : OfpDoc, strContains ofp.plan_html "DESCENT FORECAST WINDS" = false →
       extract_descent_winds ofp "DAL" = .error .indexError) ∧
    extract_descent_winds ofpDalNo10000 "DAL" = .error (.valueError "10000 is not in list") ∧
    (∀ ofp : OfpDoc, strContains ofp.plan_html "DESCENT WINDS" = false →
       extract_descent_winds ofp "UAL 2018" = .error .indexError) ∧
    (∀ ofp : OfpDoc, strContains ofp.plan_html "DESCENT WINDS" = false →
       extract_descent_winds ofp "SWA" = .error .indexError) ∧
    (∀ ofp : OfpDoc, strContains ofp.plan_html "CRZ ALT" = false →
       extract_descent_winds ofp "KLM" = .error .indexError) ∧
    (∀ (ofp : OfpDoc) (e : PyErr),
       extract_descent_winds ofp ofp.ofp_layout = .error e →
       ∃ e2, SimBrief.parse_ofp ofp = .error e2) := by
  refine ⟨?_, ?_, by decide, ?_, ?_, ?_, ?_⟩
  · intro ofp layout hfam h
    have he := pyIndex_error_of_le (strSplitOn ofp.plan_html "DESCENT") 1
      (strSplitOn_len_of_not_contains _ _ h)
    simp [extract_descent_winds, hfam, he]
  · intro ofp h
    have he := pyIndex_error_of_le (strSplitOn ofp.plan_html "DESCENT FORECAST WINDS") 1
      (strSplitOn_len_of_not_contains _ _ h)
    simp [extract_descent_winds, he, show (famA.any fun s => strContains "DAL" s) = false from by decide]
  · intro ofp h
    have he := pyIndex_error_of_le (strSplitOn ofp.plan_html "DESCENT WINDS") 1
      (strSplitOn_len_of_not_contains _ _ h)
    simp [extract_descent_winds, he,
      show (famA.any fun s => strContains "UAL 2018" s) = false from by decide]
  · intro ofp h
    have he := pyIndex_error_of_le (strSplitOn ofp.plan_html "DESCENT WINDS") 1
      (strSplitOn_len_of_not_contains _ _ h)
    simp [extract_descent_winds, he,
      show (famA.any fun s => strContains "SWA" s) = false from by decide]
  · intro ofp h
    have he := pyIndex_error_of_le (strSplitOn ofp.plan_html "CRZ ALT") 1
      (strSplitOn_len_of_not_contains _ _ h)
    simp [extract_descent_winds, he,
      show (famA.any fun s => strContains "KLM" s) = false from by decide]
  · intro ofp e h
    unfold SimBrief.parse_ofp
    cases hlast : ofp.navlog_fixes.getLast? with
    | none => exact ⟨.indexError, rfl⟩
    | some fix =>
      cases hint : (if fix.ident = ofp.destination_icao then pyInt fix.oat_isa_dev
                    else pyInt ofp.avg_temp_dev) with
      | error e3 => exact ⟨e3, by simp [hint]⟩
      | ok v => exact ⟨e, by simp [hint, h]⟩

/-- Witness for C5: a LIDO-layout report without a `DESCENT` heading. -/
theorem C5_matched_family_missing_sentinel_witness :
    (famA.any fun s => strContains "LIDO" s) = true ∧
    strContains "nothing here" "DESCENT" = false ∧
    extract_descent_winds { ofpA with plan_html := "nothing here" } "LIDO" =
      .error .indexError :=
  ⟨by decide, by decide,
   C5_matched_family_missing_sentinel.1 { ofpA with plan_html := "nothing here" }
     "LIDO" (by decide) (by decide)⟩

/-! ## C7 -/

/-- C7: with the default 2-day recency window, when the directory holds at
least one `.fms`/`.fmx` file whose stem starts with the origin, contains the
destination and is recent enough, resolution returns the stem of the most
recently created such file and performs no download; when no such file
exists, a download of `origin ++ destination ++ ".fms"` is attempted, and a
failed download makes resolution return failure. -/
theorem C7_route_file_resolution :
    (∀ (env : Env) (s : SB) (ofp : OfpDoc) (f0 : FileEntry) (rest : List FileEntry),
       ofp.origin_icao ≠ "" → ofp.destination_icao ≠ "" →
       matchingFiles env ofp.origin_icao ofp.destination_icao = f0 :: rest →
       (SimBrief.find_or_retrieve_fp env s ofp).2 =
         ([Eff.listDir], .ok (some (pyMaxCtime f0 rest).stem)) ∧
       pyMaxCtime f0 rest ∈ f0 :: rest ∧
       (∀ g ∈ f0 :: rest, g.ctime ≤ (pyMaxCtime f0 rest).ctime)) ∧
    (∀ (env : Env) (s : SB) (ofp : OfpDoc),
       ofp.origin_icao ≠ "" → ofp.destination_icao ≠ "" →
       matchingFiles env ofp.origin_icao ofp.destination_icao = [] →
       env.downloadOk = false →
       (SimBrief.find_or_retrieve_fp env s ofp).2 =
         ([Eff.listDir,
           Eff.download (ofp.fms_directory ++ ofp.fms_xpe_link)
             (ofp.origin_icao ++ ofp.destination_icao ++ ".fms")],
          .ok none)) := by
  constructor
  · intro env s ofp f0 rest ho hd hfiles
    refine ⟨?_, (pyMaxCtime_spec f0 rest).1, (pyMaxCtime_spec f0 rest).2⟩
    simp [SimBrief.find_or_retrieve_fp, ho, hd, hfiles]
  · intro env s ofp ho hd hfiles hdl
    simp [SimBrief.find_or_retrieve_fp, ho, hd, hfiles, SimBrief.download, hdl]

/-- Witness for C7: a one-day-old matching file wins over downloading
(`envCached`, `now - ctime = 86400`), and with only a three-day-old file
(`envNoFileNoNet`, `now - ctime = 400000 > 2` days) a download of
`KJFKKBOS.fms` is attempted and its failure fails resolution. -/
theorem C7_route_file_resolution_witness :
    matchingFiles envCached "KJFK" "KBOS" =
      [{ stem := "KJFKKBOS01", suffix := ".fms", ctime := 913600 }] ∧
    (SimBrief.find_or_retrieve_fp envCached { request_id := some "OLD" } ofpA).2 =
      ([Eff.listDir], .ok (some "KJFKKBOS01")) ∧
    matchingFiles envNoFileNoNet "KJFK" "KBOS" = [] ∧
    (SimBrief.find_or_retrieve_fp envNoFileNoNet { request_id := some "OLD" } ofpA).2 =
      ([Eff.listDir, Eff.download "link.fms" "KJFKKBOS.fms"], .ok none) :=
  ⟨by decide,
   (C7_route_file_resolution.1 envCached { request_id := some "OLD" } ofpA
      { stem := "KJFKKBOS01", suffix := ".fms", ctime := 913600 } []
      (by decide) (by decide) (by decide)).1,
   by decide,
   C7_route_file_resolution.2 envNoFileNoNet { request_id := some "OLD" } ofpA
     (by decide) (by decide) (by decide) (by decide)⟩

/-! ## C3 -/

/-- Route-file resolution never touches the trip-summary dictionary. -/
theorem find_or_retrieve_fp_fp_info (env : Env) (s : SB) (ofp : OfpDoc) :
    ((SimBrief.find_or_retrieve_fp env s ofp).1).fp_info = s.fp_info := by
  unfold SimBrief.find_or_retrieve_fp SimBrief.download
  by_cases hod : ofp.origin_icao = "" ∨ ofp.destination_icao = ""
  · simp [hod]
  · rw [if_neg hod]
    rcases hm : matchingFiles env ofp.origin_icao ofp.destination_icao with _ | ⟨f0, rest⟩
    · simp only [hm]
      by_cases hdl : env.downloadOk
      · simp only [hdl, if_true]
        rcases hdep : extract_dep_arr ofp with e | ⟨dep, arr⟩ <;> simp [hdep]
      · simp [hdl]
    · simp [hm]

/-- Artifact composition and writing never touch the trip-summary
dictionary. -/
theorem create_xml_file_fp_info (env : Env) (s : SB) (data : ParsedOfp) :
    ((SimBrief.create_xml_file env s data).1).fp_info = s.fp_info := by
  unfold SimBrief.create_xml_file
  split
  · rfl
  · split <;> rfl

/-- With a failing write, `create_xml_file` cannot return `True`. -/
theorem create_xml_file_not_true (env : Env) (s : SB) (data : ParsedOfp)
    (h : env.writeOk = false) :
    (SimBrief.create_xml_file env s data).2.2 ≠ .ok true := by
  unfold SimBrief.create_xml_file
  split
  · simp
  · simp [h]

/-- With a failing write, `process` leaves the trip-summary dictionary as it
found it. -/
theorem process_fp_info_of_write_fail (env : Env) (s : SB) (ofp : OfpDoc)
    (h : env.writeOk = false) :
    ((SimBrief.process env s ofp).1).fp_info = s.fp_info := by
  unfold SimBrief.process
  by_cases hreq : s.request_id = some ofp.request_id
  · simp [hreq]
  · rw [if_neg hreq]
    have h1 := find_or_retrieve_fp_fp_info env s ofp
    rcases hfind : SimBrief.find_or_retrieve_fp env s ofp with ⟨s1, effs1, res1⟩
    rw [hfind] at h1
    simp only at h1
    simp only [hfind]
    cases res1 with
    | error e => simpa using h1
    | ok fpOpt =>
      cases fpOpt with
      | none => simpa using h1
      | some fp =>
        by_cases hfp : fp = ""
        · simp only [if_pos hfp]
          simpa using h1
        · simp only [if_neg hfp]
          cases hparse : SimBrief.parse_ofp ofp with
          | error e => simpa using h1
          | ok parsed =>
            have h2 := create_xml_file_fp_info env
              { s1 with request_id := some ofp.request_id,
                        coroute_filename := some fp } parsed
            have h3 := create_xml_file_not_true env
              { s1 with request_id := some ofp.request_id,
                        coroute_filename := some fp } parsed h
            rcases hc : SimBrief.create_xml_file env
              { s1 with request_id := some ofp.request_id,
                        coroute_filename := some fp } parsed with ⟨s2, effs2, res2⟩
            rw [hc] at h2 h3
            simp only at h2 h3
            simp only [hc]
            cases res2 with
            | error e =>
              simp only
              simpa [h2] using h1
            | ok b =>
              cases b with
              | false =>
                simp only
                simpa [h2] using h1
              | true => exact absurd rfl h3

/-- Counterexample to C3 as stated: with a resolvable cached route file, a
good parse and a failing artifact write, the outcome returned by the task
carries the NEW request id (`"NEW"`), not the unchanged input (`"OLD"`):
the object's `request_id` is overwritten as soon as the route file resolves,
before the write is attempted. -/
theorem C3_request_id_counterexample :
    simbriefTask envWriteFail (some "OLD") ofpA =
      ([Eff.listDir],
       .ok { error := some "write error", request_id := some "NEW",
             message := some "Error writing b738x.xml", fp_info := [] }) ∧
    (some "NEW" : Option String) ≠ some "OLD" :=
  ⟨by decide, by decide⟩

/-- C3 (amended): trip-summary info is populated only on successful write —
on a failing write the outcome's trip info is empty, exactly as on earlier
failures — but the outcome's request id is the newly fetched one whenever the
run got as far as the write, not the unchanged input value. -/
theorem C3_only_write_success_populates_info :
    (∀ (env : Env) (reqIn : Option String) (ofp : OfpDoc) (effs : List Eff) (o : Outcome),
       simbriefTask env reqIn ofp = (effs, .ok o) → env.writeOk = false →
       o.fp_info = []) ∧
    (∀ (env : Env) (reqIn : Option String) (ofp : OfpDoc)
       (f0 : FileEntry) (rest : List FileEntry) (p : ParsedOfp),
       reqIn ≠ some ofp.request_id →
       ofp.origin_icao ≠ "" → ofp.destination_icao ≠ "" →
       matchingFiles env ofp.origin_icao ofp.destination_icao = f0 :: rest →
       (pyMaxCtime f0 rest).stem ≠ "" →
       SimBrief.parse_ofp ofp = .ok p →
       env.writeOk = false →
       ∀ t, metarBlock (pyStrOpt (some ofp.destination_icao)) p.dest_metar = .ok t →
       simbriefTask env reqIn ofp =
         ([Eff.listDir],
          .ok { error := some "write error",
                request_id := some ofp.request_id,
                message := some "Error writing b738x.xml", fp_info := [] })) := by
  constructor
  · intro env reqIn ofp effs o h hw
    unfold simbriefTask at h
    split at h
    case _ s effs' u heq =>
      have hfp := process_fp_info_of_write_fail env { request_id := reqIn } ofp hw
      rw [heq] at hfp
      have ho : o = outcomeOf s := by
        injection h with h1 h2
        injection h2 with h3
        exact h3.symm
      rw [ho]
      exact hfp
    case _ s effs' e heq => simp at h
  · intro env reqIn ofp f0 rest p hreq ho hd hfiles hstem hparse hw t hmetar
    have hfind : SimBrief.find_or_retrieve_fp env { request_id := reqIn } ofp =
        ({ request_id := reqIn, origin := some ofp.origin_icao,
           destination := some ofp.destination_icao },
         [Eff.listDir], .ok (some (pyMaxCtime f0 rest).stem)) := by
      simp [SimBrief.find_or_retrieve_fp, ho, hd, hfiles]
    have hcompose : composePlanHtml (some ofp.destination_icao) p = .ok
        (summary_tag ++ destIsaLine p.dest_isa ++ wind_tag ++ windsBlock p.winds ++
         wx_tag ++ t) := by
      simp [composePlanHtml, hmetar]
    unfold simbriefTask SimBrief.process
    rw [if_neg hreq, hfind]
    simp only [hstem, if_neg hstem, hparse]
    unfold SimBrief.create_xml_file
    simp [hcompose, hw, outcomeOf]
    decide

/-- Witness for C3 (amended): `envWriteFail` makes the artifact write fail;
the outcome has empty trip info but carries the new request id `"NEW"`. -/
theorem C3_only_write_success_populates_info_witness :
    simbriefTask envWriteFail (some "OLD") ofpA =
      ([Eff.listDir],
       .ok { error := some "write error", request_id := some "NEW",
             message := some "Error writing b738x.xml", fp_info := [] }) ∧
    ({ error := some "write error", request_id := some "NEW",
       message := some "Error writing b738x.xml", fp_info := [] } : Outcome).fp_info = [] :=
  ⟨C3_only_write_success_populates_info.2 envWriteFail (some "OLD") ofpA
     { stem := "KJFKKBOS01", suffix := ".fms", ctime := 913600 } []
     { dest_isa := -4, dest_metar := "KBOS 211251Z 10003KT",
       winds := List.replicate 5 ["", "", ""] }
     (by decide) (by decide) (by decide) (by decide) (by decide) (by decide) rfl
     "KBOS\nSA  211251  10003KT\n" (by decide),
   C3_only_write_success_populates_info.1 envWriteFail (some "OLD") ofpA [Eff.listDir]
     { error := some "write error", request_id := some "NEW",
       message := some "Error writing b738x.xml", fp_info := [] } (by decide) rfl⟩

/-! ## C10 -/

/-- C10: artifact composition succeeds only when the destination METAR has at
least two whitespace tokens; with an empty or single-token METAR the
composition raises IndexError before any write, the whole run crosses the
task boundary as a captured exception — surfaced by the controller as the
generic unknown-error message, not as a classified file-write outcome — and
no artifact write effect is performed in that cycle. -/
theorem C10_short_metar_fails_composition :
    (∀ dest metar : String, (pySplitWs metar).length < 2 →
       metarBlock dest metar = .error .indexError) ∧
    (∀ dest metar : String, 2 ≤ (pySplitWs metar).length →
       ∃ t, metarBlock dest metar = .ok t) ∧
    (∀ (env : Env) (reqIn : Option String) (ofp : OfpDoc)
       (f0 : FileEntry) (rest : List FileEntry) (p : ParsedOfp),
       reqIn ≠ some ofp.request_id →
       ofp.origin_icao ≠ "" → ofp.destination_icao ≠ "" →
       matchingFiles env ofp.origin_icao ofp.destination_icao = f0 :: rest →
       (pyMaxCtime f0 rest).stem ≠ "" →
       SimBrief.parse_ofp ofp = .ok p →
       (pySplitWs p.dest_metar).length < 2 →
       simbriefTask env reqIn ofp = ([Eff.listDir], .error .indexError) ∧
       controllerMessage (simbriefTask env reqIn ofp).2 = some "An unknown error occurred" ∧
       ∀ name text, Eff.writeXml name text ∉ (simbriefTask env reqIn ofp).1) := by
  have hshort : ∀ dest metar : String, (pySplitWs metar).length < 2 →
      metarBlock dest metar = .error .indexError := by
    intro dest metar hlen
    have hdrop : (pySplitWs metar).drop 1 = [] := by
      rcases h' : pySplitWs metar with _ | ⟨a, t⟩
      · rfl
      · rw [h'] at hlen
        rcases t with _ | ⟨b, u⟩
        · rfl
        · simp at hlen
          omega
    simp [metarBlock, hdrop, pyIndex]
  refine ⟨hshort, ?_, ?_⟩
  · intro dest metar hlen
    rcases hsplit : pySplitWs metar with _ | ⟨a, t⟩
    · rw [hsplit] at hlen
      simp at hlen
    · rcases t with _ | ⟨b, u⟩
      · rw [hsplit] at hlen
        simp at hlen
      · refine ⟨dest ++ "\nSA  " ++ strJoin " " (strReplace b "Z" " " :: u) ++ "\n", ?_⟩
        simp [metarBlock, hsplit, pyIndex]
  · intro env reqIn ofp f0 rest p hreq ho hd hfiles hstem hparse hlen
    have hfind : SimBrief.find_or_retrieve_fp env { request_id := reqIn } ofp =
        ({ request_id := reqIn, origin := some ofp.origin_icao,
           destination := some ofp.destination_icao },
         [Eff.listDir], .ok (some (pyMaxCtime f0 rest).stem)) := by
      simp [SimBrief.find_or_retrieve_fp, ho, hd, hfiles]
    have hcompose : composePlanHtml (some ofp.destination_icao) p = .error .indexError := by
      simp [composePlanHtml, hshort (pyStrOpt (some ofp.destination_icao)) p.dest_metar hlen]
    have hmain : simbriefTask env reqIn ofp = ([Eff.listDir], .error .indexError) := by
      unfold simbriefTask SimBrief.process
      rw [if_neg hreq, hfind]
      simp only [hstem, if_neg hstem, hparse]
      unfold SimBrief.create_xml_file
      simp [hcompose]
    refine ⟨hmain, ?_, ?_⟩
    · rw [hmain]
      rfl
    · intro name text
      rw [hmain]
      simp

/-- Witness for C10: `ofpShortMetar` has the single-token METAR `KBOS`. -/
theorem C10_short_metar_fails_composition_witness :
    (pySplitWs "KBOS").length < 2 ∧
    metarBlock "KBOS" "KBOS" = .error .indexError ∧
    simbriefTask envCached (some "OLD") ofpShortMetar = ([Eff.listDir], .error .indexError) ∧
    controllerMessage (simbriefTask envCached (some "OLD") ofpShortMetar).2 =
      some "An unknown error occurred" :=
  ⟨by decide,
   C10_short_metar_fails_composition.1 "KBOS" "KBOS" (by decide),
   (C10_short_metar_fails_composition.2.2 envCached (some "OLD") ofpShortMetar
      { stem := "KJFKKBOS01", suffix := ".fms", ctime := 913600 } []
      { dest_isa := -4, dest_metar := "KBOS", winds := List.replicate 5 ["", "", ""] }
      (by decide) (by decide) (by decide) (by decide) (by decide) (by decide) (by decide)).1,
   (C10_short_metar_fails_composition.2.2 envCached (some "OLD") ofpShortMetar
      { stem := "KJFKKBOS01", suffix := ".fms", ctime := 913600 } []
      { dest_isa := -4, dest_metar := "KBOS", winds := List.replicate 5 ["", "", ""] }
      (by decide) (by decide) (by decide) (by decide) (by decide) (by decide) (by decide)).2.1⟩

/-! ## C8 -/

/-- Counterexample to C8 as stated: the code replaces EVERY `Z` of the
timestamp token (`parts[0].replace('Z', ' ')`), not only a trailing one.  On
the token `21Z1251Z` the composed line differs from the spec's
trailing-`Z`-only description (`claimedMetarLine`). -/
theorem C8_trailing_z_counterexample :
    metarBlock "KBOS" "KBOS 21Z1251Z 10003KT" = .ok "KBOS\nSA  21 1251  10003KT\n" ∧
    claimedMetarLine "KBOS" "KBOS 21Z1251Z 10003KT" = some "KBOS\nSA  21Z1251  10003KT\n" ∧
    ("KBOS\nSA  21 1251  10003KT\n" : String) ≠ "KBOS\nSA  21Z1251  10003KT\n" :=
  ⟨by decide, by decide, by decide⟩

/-- C8 (amended): the composed text block is the fixed banners around an ISA
line `AVG ISA` + padding + sign letter (`M` if negative, `P` otherwise) +
three-digit zero-padded magnitude, the rendered wind table, and a METAR line
that drops the station token, replaces every `Z` of the timestamp token by a
space (for a well-formed timestamp such as `211251Z` this is exactly the
trailing `Z`), and prefixes destination ICAO + newline + `SA  `; in
particular deviation `-4` renders `AVG ISA       M004` and the `KBOS`
example's METAR line starts with `KBOS\nSA  211251 `. -/
theorem C8_composed_artifact_text (destination metar : String) (isa : Int)
    (winds : List (List String)) (p0 : String) (rest : List String)
    (h : (pySplitWs metar).drop 1 = p0 :: rest) :
    composePlanHtml (some destination) { dest_isa := isa, dest_metar := metar, winds := winds } =
      .ok (summary_tag ++
           ("AVG ISA       " ++ (if isa < 0 then "M" else "P") ++ pad3 isa.natAbs ++ "\n\n") ++
           wind_tag ++ (strJoin "\n" (winds.map fun el => strJoin " " el) ++ "\n\n") ++
           wx_tag ++
           (destination ++ "\nSA  " ++ strJoin " " (strReplace p0 "Z" " " :: rest) ++ "\n")) ∧
    destIsaLine (-4) = "AVG ISA       M004\n\n" ∧
    metarBlock "KBOS" "KBOS 211251Z 10003KT" = .ok "KBOS\nSA  211251  10003KT\n" ∧
    strStartsWith "KBOS\nSA  211251  10003KT\n" "KBOS\nSA  211251 " = true := by
  refine ⟨?_, by decide, by decide, by decide⟩
  simp [composePlanHtml, metarBlock, destIsaLine, windsBlock, pyStrOpt, h, pyIndex]

/-- Witness for C8 (amended) at the documented end-to-end example: layout
unknown, destination `KBOS`, ISA deviation `-4`, METAR
`KBOS 211251Z 10003KT`. -/
theorem C8_composed_artifact_text_witness :
    (pySplitWs "KBOS 211251Z 10003KT").drop 1 = ["211251Z", "10003KT"] ∧
    composePlanHtml (some "KBOS")
        { dest_isa := -4, dest_metar := "KBOS 211251Z 10003KT",
          winds := List.replicate 5 ["", "", ""] } =
      .ok (summary_tag ++
           ("AVG ISA       " ++ (if (-4 : Int) < 0 then "M" else "P") ++
              pad3 (Int.natAbs (-4)) ++ "\n\n") ++
           wind_tag ++
           (strJoin "\n" ((List.replicate 5 ["", "", ""]).map fun el => strJoin " " el) ++
              "\n\n") ++
           wx_tag ++
           ("KBOS" ++ "\nSA  " ++
              strJoin " " (strReplace "211251Z" "Z" " " :: ["10003KT"]) ++ "\n")) :=
  ⟨by decide,
   (C8_composed_artifact_text "KBOS" "KBOS 211251Z 10003KT" (-4)
      (List.replicate 5 ["", "", ""]) "211251Z" ["10003KT"] (by decide)).1⟩

/-! ## C1 -/

/-- With an outstanding task, a tick never starts a new one: it either keeps
waiting (pending) or joins and clears the finished task, and in no case does
it report having started a task. -/
theorem loopCallback_with_outstanding (s : CtrlState) (i : TickInput) (t : TaskHandle)
    (hA : s.async_task = some t) :
    (loopCallback s i).2 = false ∧
    ((loopCallback s i).1.async_task = some t ∨
     ((loopCallback s i).1.async_task = none ∧ i.task_pending = false)) ∧
    (i.task_pending = true → (loopCallback s i).1.async_task = some t) := by
  unfold loopCallback
  by_cases hap : i.aircraft_detected && pilotTruthy i.pilot_id
  · by_cases hfs : s.flight_started
    · by_cases hag : i.at_gate
      · simp [hap, hfs, hag, hA]
      · simp [hap, hfs, hag, hA]
    · by_cases hfc : s.fp_checked
      · by_cases hag : i.at_gate
        · simp [hap, hfs, hfc, hag, hA]
        · simp [hap, hfs, hfc, hag, hA]
      · by_cases hag : i.at_gate
        · by_cases hp : i.task_pending
          · simp [hap, hfs, hfc, hag, hA, hp]
          · simp only [hap, hfs, hfc, hag, hA, hp]
            rcases i.task_result with e | o <;> simp [Bool.not_eq_true]
        · simp [hap, hfs, hfc, hag, hA]
  · simp only [hap, Bool.false_eq_true, if_false]
    by_cases had : i.aircraft_detected
    · by_cases hpt : pilotTruthy i.pilot_id
      · simp [had, hpt, hA]
      · simp [had, hpt, hA]
    · simp [had, hA]

/-- C1: a tick starts a new acquisition task only when none is outstanding;
while the outstanding task is still pending the tick leaves it in place and
starts nothing; and the outstanding slot is cleared only once the task is no
longer pending (completed, joined, and reset in the same tick). -/
theorem C1_at_most_one_outstanding_task :
    (∀ (s : CtrlState) (i : TickInput),
       (loopCallback s i).2 = true → s.async_task = none) ∧
    (∀ (s : CtrlState) (i : TickInput) (t : TaskHandle),
       s.async_task = some t → i.task_pending = true →
       (loopCallback s i).1.async_task = some t ∧ (loopCallback s i).2 = false) ∧
    (∀ (s : CtrlState) (i : TickInput) (t : TaskHandle),
       s.async_task = some t → (loopCallback s i).1.async_task = none →
       i.task_pending = false) := by
  refine ⟨?_, ?_, ?_⟩
  · intro s i h
    cases hA : s.async_task with
    | none => rfl
    | some t =>
      have := (loopCallback_with_outstanding s i t hA).1
      rw [this] at h
      exact absurd h (by simp)
  · intro s i t hA hp
    exact ⟨(loopCallback_with_outstanding s i t hA).2.2 hp,
           (loopCallback_with_outstanding s i t hA).1⟩
  · intro s i t hA hnone
    rcases (loopCallback_with_outstanding s i t hA).2.1 with h1 | h1
    · rw [hnone] at h1
      exact absurd h1 (by simp)
    · exact h1.2

/-- Witness for C1: a fresh state starts a task (and indeed had none
outstanding); with an outstanding pending task (`ctrlPendingState`,
`tickAtGate`), the tick keeps it and starts nothing. -/
theorem C1_at_most_one_outstanding_task_witness :
    (loopCallback ctrlIdleState tickAtGate).2 = true ∧
    ctrlIdleState.async_task = none ∧
    ctrlPendingState.async_task = some { pilot_id := 7, request_id := some "OLD" } ∧
    tickAtGate.task_pending = true ∧
    (loopCallback ctrlPendingState tickAtGate).1.async_task =
      some { pilot_id := 7, request_id := some "OLD" } ∧
    (loopCallback ctrlPendingState tickAtGate).2 = false :=
  ⟨by decide,
   C1_at_most_one_outstanding_task.1 ctrlIdleState tickAtGate (by decide),
   rfl, rfl,
   (C1_at_most_one_outstanding_task.2.1 ctrlPendingState tickAtGate
      { pilot_id := 7, request_id := some "OLD" } rfl rfl).1,
   (C1_at_most_one_outstanding_task.2.1 ctrlPendingState tickAtGate
      { pilot_id := 7, request_id := some "OLD" } rfl rfl).2⟩
